import Mathlib

/-!
Shallow embedding of `tax_calculator.py` (Shanghai salary tax tool).
Real-valued amounts are modelled as rationals; Python `round(x, 2)`
(round-half-to-even at two decimals) is modelled by `pyRound2`, and
`int(math.floor(x + 0.5))` by the integer floor of `x + 1/2`.
-/

namespace TaxCalc

/-- MIN_BASE = 2690 -/
def MIN_BASE : ℚ := 2690

/-- MAX_BASE = 36921 -/
def MAX_BASE : ℚ := 36921

/-- SOCIAL_RATES pension -/
def PENSION_RATE : ℚ := 8 / 100

/-- SOCIAL_RATES medical -/
def MEDICAL_RATE : ℚ := 2 / 100

/-- SOCIAL_RATES unemployment -/
def UNEMPLOYMENT_RATE : ℚ := 5 / 1000

/-- HOUSING_FUND_RATE = 0.07 -/
def HOUSING_FUND_RATE : ℚ := 7 / 100

/-- HOUSING_FUND_RATE_EMPLOYER = 0.07 -/
def HOUSING_FUND_RATE_EMPLOYER : ℚ := 7 / 100

/-- STANDARD_DEDUCTION_MONTHLY = 5000 -/
def STANDARD_DEDUCTION_MONTHLY : ℚ := 5000

/-- STANDARD_DEDUCTION_ANNUAL = 12 * 5000 -/
def STANDARD_DEDUCTION_ANNUAL : ℚ := STANDARD_DEDUCTION_MONTHLY * 12

/-- Round-half-to-even to the nearest integer, the tie rule of Python
builtin `round`. On a non-tie it agrees with rounding to the nearest
integer; on a tie (fractional part exactly one half) it picks the even
neighbour. -/
def rhe (x : ℚ) : ℤ :=
  if x - ⌊x⌋ = 1 / 2 then (if 2 ∣ ⌊x⌋ then ⌊x⌋ else ⌊x⌋ + 1) else round x

/-- Python `round(x, 2)`: scale by 100, round half to even, scale back. -/
def pyRound2 (x : ℚ) : ℚ := (rhe (x * 100) : ℚ) / 100

/-- `_r(value, to_int)`: `int(math.floor(value + 0.5))` when `to_int`,
else `round(value, 2)`. -/
def _r (value : ℚ) (to_int : Bool) : ℚ :=
  if to_int then ((⌊value + 1 / 2⌋ : ℤ) : ℚ) else pyRound2 value

/-- `_cap_base(salary)`: clamp to [MIN_BASE, MAX_BASE]. -/
def _cap_base (salary : ℚ) : ℚ := max MIN_BASE (min salary MAX_BASE)

/-- The dict returned by `_social`. -/
structure SocialSet where
  pension : ℚ
  medical : ℚ
  unemployment : ℚ
  housing_fund : ℚ
deriving DecidableEq, Repr

/-- Sum of the values of the `_social` dict. -/
def SocialSet.total (s : SocialSet) : ℚ :=
  s.pension + s.medical + s.unemployment + s.housing_fund

/-- `_social(base, round_int)`: employee-side contributions, each passed
through `_r`. -/
def _social (base : ℚ) (round_int : Bool) : SocialSet :=
  ⟨_r (base * PENSION_RATE) round_int,
   _r (base * MEDICAL_RATE + 3) round_int,
   _r (base * UNEMPLOYMENT_RATE) round_int,
   _r (base * HOUSING_FUND_RATE) round_int⟩

/-- A bracket row `(upper_limit, rate, quick_deduction)`; `none` as the
upper limit stands for `float(inf)`. -/
def Bracket : Type := Option ℚ × ℚ × ℚ

/-- The test `taxable <= limit` of the bracket scan; always true against
the infinite limit. -/
def withinLimit (taxable : ℚ) : Option ℚ → Bool
  | none => true
  | some l => decide (taxable ≤ l)

/-- MONTHLY_TAX_BRACKETS -/
def MONTHLY_TAX_BRACKETS : List Bracket :=
  [(some 3000, 3 / 100, 0),
   (some 12000, 10 / 100, 210),
   (some 25000, 20 / 100, 1410),
   (some 35000, 25 / 100, 2660),
   (some 55000, 30 / 100, 4410),
   (some 80000, 35 / 100, 7160),
   (none, 45 / 100, 15160)]

/-- ANNUAL_TAX_BRACKETS -/
def ANNUAL_TAX_BRACKETS : List Bracket :=
  [(some 36000, 3 / 100, 0),
   (some 144000, 10 / 100, 2520),
   (some 300000, 20 / 100, 16920),
   (some 420000, 25 / 100, 31920),
   (some 660000, 30 / 100, 52920),
   (some 960000, 35 / 100, 85920),
   (none, 45 / 100, 181920)]

/-- `_tax(taxable, brackets)`: first row whose limit admits `taxable`
yields `round(taxable * rate - quick, 2)`; the fallback is 0.0. -/
def _tax (taxable : ℚ) : List Bracket → ℚ
  | [] => 0
  | (limit, rate, quick) :: rest =>
    if withinLimit taxable limit then pyRound2 (taxable * rate - quick)
    else _tax taxable rest

/-- The dict returned by `monthly_net`. -/
structure MonthlyResult where
  pension : ℚ
  medical : ℚ
  unemployment : ℚ
  housing_fund : ℚ
  social_total : ℚ
  taxable : ℚ
  tax : ℚ
  net : ℚ
deriving DecidableEq, Repr

/-- `monthly_net(gross, round_int)`. -/
def monthly_net (gross : ℚ) (round_int : Bool) : MonthlyResult :=
  let base := _cap_base gross
  let social := _social base round_int
  let social_total_val := social.total
  let social_total := _r social_total_val round_int
  let taxable := max 0 (gross - social_total_val - STANDARD_DEDUCTION_MONTHLY)
  let tax := _r (_tax taxable MONTHLY_TAX_BRACKETS) round_int
  let net := _r (gross - social_total_val - tax) round_int
  ⟨social.pension, social.medical, social.unemployment, social.housing_fund,
   social_total, _r taxable round_int, tax, net⟩

/-- The dict returned by `annual_net`. -/
structure AnnualResult where
  pension_year : ℚ
  medical_year : ℚ
  unemployment_year : ℚ
  housing_fund_year : ℚ
  social_total_annual : ℚ
  taxable_annual : ℚ
  tax_annual : ℚ
  net_annual : ℚ
  net_monthly_equivalent : ℚ
deriving DecidableEq, Repr

/-- `annual_net(gross_annual, round_int)`. -/
def annual_net (gross_annual : ℚ) (round_int : Bool) : AnnualResult :=
  let avg := gross_annual / 12
  let base := _cap_base avg
  let social_m := _social base round_int
  let social_total_year_val := social_m.total * 12
  let social_total_year := _r social_total_year_val round_int
  let taxable := max 0 (gross_annual - social_total_year_val - STANDARD_DEDUCTION_ANNUAL)
  let tax := _r (_tax taxable ANNUAL_TAX_BRACKETS) round_int
  let net := _r (gross_annual - social_total_year_val - tax) round_int
  ⟨_r (social_m.pension * 12) round_int,
   _r (social_m.medical * 12) round_int,
   _r (social_m.unemployment * 12) round_int,
   _r (social_m.housing_fund * 12) round_int,
   social_total_year, _r taxable round_int, tax, net,
   _r (net / 12) round_int⟩

/-- One per-month record of `yearly_salary_details`. -/
structure MonthDetail where
  month : ℕ
  gross : ℚ
  pension : ℚ
  medical : ℚ
  unemployment : ℚ
  housing_fund : ℚ
  social_total : ℚ
  personal_housing : ℚ
  company_housing : ℚ
  housing_total : ℚ
  tax : ℚ
  net : ℚ
deriving DecidableEq, Repr

/-- The totals dict of `yearly_salary_details`. -/
structure Totals where
  gross_annual : ℚ
  social_personal_annual : ℚ
  housing_personal_annual : ℚ
  housing_company_annual : ℚ
  tax_annual : ℚ
  net_annual : ℚ
deriving DecidableEq, Repr

/-- The loop state of `yearly_salary_details`: the two accumulators, the
monthly records built so far, and the running (unrounded) totals. -/
structure LoopState where
  cumulative_taxable : ℚ
  cumulative_tax_paid : ℚ
  monthly : List MonthDetail
  totals : Totals
deriving DecidableEq, Repr

/-- One iteration of the loop body of `yearly_salary_details` for month
number `idx` with gross salary `gross`. -/
def yearlyStep (round_int : Bool) (idx : ℕ) (gross : ℚ) (st : LoopState) :
    LoopState :=
  let base := _cap_base gross
  let social := _social base round_int
  let personal_social_total := social.total
  let personal_housing := social.housing_fund
  let company_housing := _r (base * HOUSING_FUND_RATE_EMPLOYER) round_int
  let cumulative_taxable :=
    st.cumulative_taxable + (gross - personal_social_total - STANDARD_DEDUCTION_MONTHLY)
  let taxable_for_bracket := max 0 cumulative_taxable
  let cumulative_tax := _tax taxable_for_bracket ANNUAL_TAX_BRACKETS
  let month_tax_raw := cumulative_tax - st.cumulative_tax_paid
  let month_tax := _r (max 0 month_tax_raw) round_int
  let cumulative_tax_paid := st.cumulative_tax_paid + month_tax
  let net := _r (gross - personal_social_total - month_tax) round_int
  let details : MonthDetail :=
    ⟨idx, _r gross round_int, social.pension, social.medical,
     social.unemployment, social.housing_fund,
     _r personal_social_total round_int, personal_housing, company_housing,
     _r (personal_housing + company_housing) round_int, month_tax, net⟩
  ⟨cumulative_taxable, cumulative_tax_paid, st.monthly ++ [details],
   ⟨st.totals.gross_annual + gross,
    st.totals.social_personal_annual + personal_social_total,
    st.totals.housing_personal_annual + personal_housing,
    st.totals.housing_company_annual + company_housing,
    st.totals.tax_annual + month_tax,
    st.totals.net_annual + net⟩⟩

/-- The enumerated loop of `yearly_salary_details`, consuming the gross
list in order, with `idx` the 1-based month number of the next entry. -/
def yearlyLoop (round_int : Bool) : ℕ → List ℚ → LoopState → LoopState
  | _, [], st => st
  | idx, g :: rest, st => yearlyLoop round_int (idx + 1) rest (yearlyStep round_int idx g st)

/-- Final pass of `yearly_salary_details`: `_r` applied to every totals
field once. -/
def roundTotals (t : Totals) (round_int : Bool) : Totals :=
  ⟨_r t.gross_annual round_int, _r t.social_personal_annual round_int,
   _r t.housing_personal_annual round_int, _r t.housing_company_annual round_int,
   _r t.tax_annual round_int, _r t.net_annual round_int⟩

/-- The result dict of `yearly_salary_details`. -/
structure YearlyDetail where
  monthly : List MonthDetail
  totals : Totals
deriving DecidableEq, Repr

/-- The initial loop state: accumulators and totals all zero. -/
def initState : LoopState := ⟨0, 0, [], ⟨0, 0, 0, 0, 0, 0⟩⟩

/-- `yearly_salary_details(gross_monthly, round_int)`: normalize the list
to length 12 as `(gross_monthly + [0.0] * 12)[:12]`, fold the loop body
over it, then round the totals. -/
def yearly_salary_details (gross_monthly : List ℚ) (round_int : Bool) :
    YearlyDetail :=
  let gross_list := (gross_monthly ++ List.replicate 12 0).take 12
  let final := yearlyLoop round_int 1 gross_list initState
  ⟨final.monthly, roundTotals final.totals round_int⟩

/-- Integer rounding with ties away from zero, following the words of the
spec for the two-decimal case of the rounding policy. -/
def awayInt (x : ℚ) : ℤ := if 0 ≤ x then ⌊x + 1 / 2⌋ else -⌊-x + 1 / 2⌋

/-- Rounding to two decimal places with ties away from zero, the rule the
spec states for `roundValue(v, false)`; written from the words of the spec
for comparison with the source function `_r`. -/
def roundHalfAwayFromZero2 (v : ℚ) : ℚ := (awayInt (v * 100) : ℚ) / 100

end TaxCalc

namespace TaxCalc

/-! ### Lemmas about the rounding kernel -/

theorem rhe_le (x : ℚ) : (rhe x : ℚ) ≤ x + 1 / 2 := by
  unfold rhe
  split_ifs with h h2
  · have hfl := Int.floor_le x
    linarith
  · push_cast
    linarith
  · rw [round_eq]
    have hfl := Int.floor_le (x + 1 / 2)
    exact_mod_cast hfl

theorem le_rhe (x : ℚ) : x - 1 / 2 ≤ (rhe x : ℚ) := by
  unfold rhe
  split_ifs with h h2
  · linarith
  · have hfl := Int.floor_le x
    push_cast
    linarith
  · rw [round_eq]
    have hfl := Int.lt_floor_add_one (x + 1 / 2)
    push_cast at hfl ⊢
    linarith

theorem rhe_mono {x y : ℚ} (h : x ≤ y) : rhe x ≤ rhe y := by
  by_contra hlt
  push_neg at hlt
  have h1 : (rhe y : ℚ) + 1 ≤ (rhe x : ℚ) := by
    have := Int.add_one_le_iff.mpr hlt
    exact_mod_cast this
  have h2 := rhe_le x
  have h3 := le_rhe y
  have hxy : x = y := by linarith
  rw [hxy] at hlt
  exact lt_irrefl _ hlt

theorem rhe_intCast (k : ℤ) : rhe (k : ℚ) = k := by
  unfold rhe
  rw [Int.floor_intCast]
  have hc : ¬((k : ℚ) - (k : ℚ) = 1 / 2) := by norm_num
  rw [if_neg hc, round_intCast]

theorem rhe_nonneg {x : ℚ} (h : 0 ≤ x) : 0 ≤ rhe x := by
  have h1 := le_rhe x
  have h2 : (-1 : ℚ) < (rhe x : ℚ) := by linarith
  have : (-1 : ℤ) < rhe x := by exact_mod_cast h2
  omega

/-! ### Lemmas about `pyRound2` and `_r` -/

theorem pyRound2_mono {x y : ℚ} (h : x ≤ y) : pyRound2 x ≤ pyRound2 y := by
  unfold pyRound2
  have hm : rhe (x * 100) ≤ rhe (y * 100) := rhe_mono (by linarith)
  have : (rhe (x * 100) : ℚ) ≤ (rhe (y * 100) : ℚ) := by exact_mod_cast hm
  linarith

theorem pyRound2_nonneg {x : ℚ} (h : 0 ≤ x) : 0 ≤ pyRound2 x := by
  unfold pyRound2
  have h1 : (0 : ℤ) ≤ rhe (x * 100) := rhe_nonneg (by linarith)
  have : (0 : ℚ) ≤ (rhe (x * 100) : ℚ) := by exact_mod_cast h1
  linarith

theorem abs_pyRound2_sub (x : ℚ) : |pyRound2 x - x| ≤ 1 / 200 := by
  unfold pyRound2
  have h1 := rhe_le (x * 100)
  have h2 := le_rhe (x * 100)
  rw [abs_le]
  constructor <;> [skip; skip] <;> linarith

theorem pyRound2_fix {x : ℚ} (k : ℤ) (h : x * 100 = (k : ℚ)) : pyRound2 x = x := by
  unfold pyRound2
  rw [h, rhe_intCast]
  field_simp
  linarith [h]

theorem _r_nonneg {v : ℚ} (b : Bool) (h : 0 ≤ v) : 0 ≤ _r v b := by
  unfold _r
  split_ifs
  · have h1 : (0 : ℤ) ≤ ⌊v + 1 / 2⌋ := Int.le_floor.mpr (by push_cast; linarith)
    exact_mod_cast h1
  · exact pyRound2_nonneg h

/-- The value grid of the rounding policy: whole units when rounding to
integers, hundredths otherwise. -/
def onGrid (b : Bool) (x : ℚ) : Prop :=
  ∃ k : ℤ, x * (if b then 1 else 100) = (k : ℚ)

theorem onGrid_add {b : Bool} {x y : ℚ} (hx : onGrid b x) (hy : onGrid b y) :
    onGrid b (x + y) := by
  obtain ⟨k, hk⟩ := hx
  obtain ⟨l, hl⟩ := hy
  exact ⟨k + l, by rw [add_mul, hk, hl]; push_cast; ring⟩

theorem onGrid_r (v : ℚ) (b : Bool) : onGrid b (_r v b) := by
  unfold onGrid _r
  cases b with
  | true => exact ⟨⌊v + 1 / 2⌋, by simp⟩
  | false =>
    refine ⟨rhe (v * 100), ?_⟩
    simp only [if_false, Bool.false_eq_true, pyRound2]
    field_simp

theorem _r_fix {x : ℚ} {b : Bool} (h : onGrid b x) : _r x b = x := by
  obtain ⟨k, hk⟩ := h
  unfold _r
  cases b with
  | true =>
    simp only [if_true]
    simp only [if_true, mul_one] at hk
    rw [hk]
    rw [show ((k : ℚ) + 1 / 2) = (1 : ℚ) / 2 + (k : ℤ) by ring]
    rw [Int.floor_add_int]
    norm_num
  | false =>
    simp only [Bool.false_eq_true, if_false] at hk ⊢
    exact pyRound2_fix k hk

theorem social_total_onGrid (base : ℚ) (b : Bool) :
    onGrid b (_social base b).total := by
  unfold _social SocialSet.total
  exact onGrid_add (onGrid_add (onGrid_add (onGrid_r _ b) (onGrid_r _ b))
    (onGrid_r _ b)) (onGrid_r _ b)

/-! ### Claim theorems -/

/-- C5: `monthly_net(12000, false)` returns exactly pension 960,
medical 243, unemployment 60, housing fund 840, social total 2103,
taxable 4897, tax 279.70 and net 9617.30. -/
theorem claim_C5 :
    monthly_net 12000 false =
      ⟨960, 243, 60, 840, 2103, 4897, 279.70, 9617.30⟩ := by
  norm_num [monthly_net, _cap_base, _social, SocialSet.total, _r, pyRound2, rhe,
    _tax, MONTHLY_TAX_BRACKETS, withinLimit, MIN_BASE, MAX_BASE, PENSION_RATE,
    MEDICAL_RATE, UNEMPLOYMENT_RATE, HOUSING_FUND_RATE,
    STANDARD_DEDUCTION_MONTHLY, round_eq]

/-- C4: in `monthly_net`, for every gross and rounding flag, the four
contribution components are each rounded at point of output, while taxable
income and net pay are computed from the plain (not re-rounded) sum of
those contributions: taxable = max(0, gross - sum - 5000) and
net = gross - sum - tax, each rounded only when emitted; the output
`social_total` is the rounding of that same sum. -/
theorem claim_C4 (gross : ℚ) (b : Bool) :
    (monthly_net gross b).pension = _r (_cap_base gross * PENSION_RATE) b ∧
    (monthly_net gross b).medical = _r (_cap_base gross * MEDICAL_RATE + 3) b ∧
    (monthly_net gross b).unemployment = _r (_cap_base gross * UNEMPLOYMENT_RATE) b ∧
    (monthly_net gross b).housing_fund = _r (_cap_base gross * HOUSING_FUND_RATE) b ∧
    (monthly_net gross b).social_total =
      _r ((monthly_net gross b).pension + (monthly_net gross b).medical +
        (monthly_net gross b).unemployment + (monthly_net gross b).housing_fund) b ∧
    (monthly_net gross b).taxable =
      _r (max 0 (gross - ((monthly_net gross b).pension + (monthly_net gross b).medical +
        (monthly_net gross b).unemployment + (monthly_net gross b).housing_fund) -
        STANDARD_DEDUCTION_MONTHLY)) b ∧
    (monthly_net gross b).net =
      _r (gross - ((monthly_net gross b).pension + (monthly_net gross b).medical +
        (monthly_net gross b).unemployment + (monthly_net gross b).housing_fund) -
        (monthly_net gross b).tax) b :=
  ⟨rfl, rfl, rfl, rfl, rfl, rfl, rfl⟩

/-- C7, counterexample: the claim says `roundValue(v, false)` breaks ties
away from zero, but on the tie 0.125 the code rounds half to even and
returns 0.12, not the 0.13 that ties-away-from-zero yields. -/
theorem claim_C7_counterexample :
    _r (1 / 8) false = 12 / 100 ∧
    roundHalfAwayFromZero2 (1 / 8) = 13 / 100 ∧
    _r (1 / 8) false ≠ roundHalfAwayFromZero2 (1 / 8) := by
  norm_num [_r, pyRound2, rhe, roundHalfAwayFromZero2, awayInt, round_eq]

/-- C7, amended: `roundValue(v, true)` is `floor(v + 0.5)` for every real
v (negative included); `roundValue(v, false)` rounds to 2 decimal places —
the result is a whole number of hundredths within half a cent of v — and
breaks ties (fractional part of 100v exactly one half) to the even
neighbour, not away from zero. -/
theorem claim_C7 (v : ℚ) :
    _r v true = ((⌊v + 1 / 2⌋ : ℤ) : ℚ) ∧
    (∃ k : ℤ, _r v false * 100 = (k : ℚ)) ∧
    |_r v false - v| ≤ 1 / 200 ∧
    (v * 100 - ⌊v * 100⌋ = 1 / 2 →
      ∃ k : ℤ, _r v false * 100 = 2 * (k : ℚ)) := by
  refine ⟨by simp [_r], ?_, ?_, ?_⟩
  · have h := onGrid_r v false
    obtain ⟨k, hk⟩ := h
    exact ⟨k, by simpa using hk⟩
  · have h : _r v false = pyRound2 v := by simp [_r]
    rw [h]
    exact abs_pyRound2_sub v
  · intro htie
    have hr : _r v false * 100 = (rhe (v * 100) : ℚ) := by
      simp only [_r, Bool.false_eq_true, if_false, pyRound2]
      field_simp
    have hrhe : rhe (v * 100) =
        if 2 ∣ ⌊v * 100⌋ then ⌊v * 100⌋ else ⌊v * 100⌋ + 1 := by
      rw [rhe, if_pos htie]
    by_cases hd : 2 ∣ ⌊v * 100⌋
    · obtain ⟨m, hm⟩ := hd
      refine ⟨m, ?_⟩
      rw [hr, hrhe, if_pos ⟨m, hm⟩, hm]
      push_cast
      ring
    · rcases Int.even_or_odd ⌊v * 100⌋ with he | ho
      · exact absurd he.two_dvd hd
      · obtain ⟨m, hm⟩ := ho
        refine ⟨m + 1, ?_⟩
        rw [hr, hrhe, if_neg hd, hm]
        push_cast
        ring

/-- C7 witness: the amended theorem applied at the tie v = 0.125. -/
theorem claim_C7_witness :
    (1 / 8 : ℚ) * 100 - ⌊(1 / 8 : ℚ) * 100⌋ = 1 / 2 ∧
    (∃ k : ℤ, _r (1 / 8) false * 100 = 2 * (k : ℚ)) := by
  have htie : (1 / 8 : ℚ) * 100 - ⌊(1 / 8 : ℚ) * 100⌋ = 1 / 2 := by norm_num
  exact ⟨htie, (claim_C7 (1 / 8)).2.2.2 htie⟩

set_option maxHeartbeats 2000000 in
/-- C8: for each of the two fixed bracket tables, the progressive tax
evaluator is monotone non-decreasing in its taxable-income argument. -/
theorem claim_C8 {x y : ℚ} (h : x ≤ y) :
    _tax x MONTHLY_TAX_BRACKETS ≤ _tax y MONTHLY_TAX_BRACKETS ∧
    _tax x ANNUAL_TAX_BRACKETS ≤ _tax y ANNUAL_TAX_BRACKETS := by
  constructor
  · simp only [_tax, MONTHLY_TAX_BRACKETS, withinLimit, decide_eq_true_eq, if_true]
    split_ifs <;> (apply pyRound2_mono; linarith)
  · simp only [_tax, ANNUAL_TAX_BRACKETS, withinLimit, decide_eq_true_eq, if_true]
    split_ifs <;> (apply pyRound2_mono; linarith)

/-- C8 witness: monotonicity applied at the pair 100 ≤ 200. -/
theorem claim_C8_witness :
    (100 : ℚ) ≤ 200 ∧
    (_tax 100 MONTHLY_TAX_BRACKETS ≤ _tax 200 MONTHLY_TAX_BRACKETS ∧
      _tax 100 ANNUAL_TAX_BRACKETS ≤ _tax 200 ANNUAL_TAX_BRACKETS) :=
  ⟨by norm_num, claim_C8 (by norm_num)⟩

/-! ### Lemmas about the cumulative loop -/

theorem yearlyStep_monthly_length (b : Bool) (idx : ℕ) (g : ℚ) (st : LoopState) :
    (yearlyStep b idx g st).monthly.length = st.monthly.length + 1 := by
  simp [yearlyStep]

theorem yearlyLoop_monthly_length (b : Bool) (gs : List ℚ) :
    ∀ (idx : ℕ) (st : LoopState),
      (yearlyLoop b idx gs st).monthly.length = st.monthly.length + gs.length := by
  induction gs with
  | nil => intro idx st; simp [yearlyLoop]
  | cons g rest ih =>
    intro idx st
    rw [yearlyLoop, ih, yearlyStep_monthly_length]
    simp
    omega

theorem yearlyLoop_monthly_forall (b : Bool) (Q : MonthDetail → Prop)
    (hstep : ∀ (idx : ℕ) (g : ℚ) (st : LoopState),
      (∀ d ∈ st.monthly, Q d) → ∀ d ∈ (yearlyStep b idx g st).monthly, Q d)
    (gs : List ℚ) : ∀ (idx : ℕ) (st : LoopState),
      (∀ d ∈ st.monthly, Q d) → ∀ d ∈ (yearlyLoop b idx gs st).monthly, Q d := by
  induction gs with
  | nil => intro idx st h; simpa [yearlyLoop] using h
  | cons g rest ih =>
    intro idx st h
    rw [yearlyLoop]
    exact ih _ _ (hstep _ _ _ h)

/-- C2: every per-month record produced by the cumulative calculator has a
non-negative tax field, for every input sequence and rounding flag: the
incremental tax is clamped at zero before rounding. -/
theorem claim_C2 (xs : List ℚ) (b : Bool) (d : MonthDetail)
    (hd : d ∈ (yearly_salary_details xs b).monthly) : 0 ≤ d.tax := by
  refine yearlyLoop_monthly_forall b (fun d => 0 ≤ d.tax) ?_ _ 1 initState ?_ d hd
  · intro idx g st h e he
    simp only [yearlyStep, List.mem_append, List.mem_singleton] at he
    rcases he with he | he
    · exact h e he
    · subst he
      exact _r_nonneg b (le_max_left 0 _)
  · intro e he
    simp [initState] at he

/-- C10: in every per-month record of the cumulative calculator the
employee-side and employer-side housing fund figures coincide: both rates
are 0.07 of the same capped base, rounded by the same function. -/
theorem claim_C10 (xs : List ℚ) (b : Bool) (d : MonthDetail)
    (hd : d ∈ (yearly_salary_details xs b).monthly) :
    d.personal_housing = d.company_housing := by
  refine yearlyLoop_monthly_forall b
    (fun d => d.personal_housing = d.company_housing) ?_ _ 1 initState ?_ d hd
  · intro idx g st h e he
    simp only [yearlyStep, List.mem_append, List.mem_singleton] at he
    rcases he with he | he
    · exact h e he
    · subst he
      show (_social (_cap_base g) b).housing_fund =
        _r (_cap_base g * HOUSING_FUND_RATE_EMPLOYER) b
      simp only [_social]
      norm_num [HOUSING_FUND_RATE, HOUSING_FUND_RATE_EMPLOYER]
  · intro e he
    simp [initState] at he

/-- Padding/truncation of the input list is idempotent: feeding the same
list again after normalization selects the same 12 gross values. -/
theorem normalize_take (xs : List ℚ) :
    (xs ++ List.replicate 12 0).take 12 =
      ((xs.take 12 ++ List.replicate (12 - xs.length) 0) ++
        List.replicate 12 0).take 12 := by
  have key : ∀ ys : List ℚ, (ys ++ List.replicate 12 0).take 12 =
      ys.take 12 ++ List.replicate (12 - ys.length) (0 : ℚ) := by
    intro ys
    rw [List.take_append_eq_append_take, List.take_replicate]
    congr 2
    omega
  rw [key, key]
  have hP : (xs.take 12 ++ List.replicate (12 - xs.length) (0 : ℚ)).length = 12 := by
    simp
    omega
  rw [List.take_of_length_le (le_of_eq hP), hP]
  simp

/-- C9: the cumulative calculator normalizes every input list to exactly
12 entries (padding with zero months, dropping entries beyond the
twelfth), always returns exactly 12 monthly records, and never treats a
length mismatch as an error: running it on the explicitly normalized list
gives the identical result. -/
theorem claim_C9 (xs : List ℚ) (b : Bool) :
    (yearly_salary_details xs b).monthly.length = 12 ∧
    yearly_salary_details xs b =
      yearly_salary_details
        (xs.take 12 ++ List.replicate (12 - xs.length) 0) b := by
  constructor
  · simp only [yearly_salary_details]
    rw [yearlyLoop_monthly_length]
    simp [initState]
  · simp only [yearly_salary_details]
    rw [← normalize_take xs]

/-- The social_total field of the record a step appends is the plain
contribution sum: re-rounding a sum of already-rounded values on the same
grid changes nothing. -/
theorem yearlyStep_social_total_fix (b : Bool) (g : ℚ) :
    _r (_social (_cap_base g) b).total b = (_social (_cap_base g) b).total :=
  _r_fix (social_total_onGrid _ b)

/-- How one loop iteration moves the running totals relative to the column
sums over the records built so far. -/
theorem yearlyStep_totals (b : Bool) (idx : ℕ) (g : ℚ) (st : LoopState) :
    (yearlyStep b idx g st).totals.gross_annual = st.totals.gross_annual + g ∧
    (yearlyStep b idx g st).totals.social_personal_annual +
        (st.monthly.map MonthDetail.social_total).sum =
      st.totals.social_personal_annual +
        ((yearlyStep b idx g st).monthly.map MonthDetail.social_total).sum ∧
    (yearlyStep b idx g st).totals.housing_personal_annual +
        (st.monthly.map MonthDetail.personal_housing).sum =
      st.totals.housing_personal_annual +
        ((yearlyStep b idx g st).monthly.map MonthDetail.personal_housing).sum ∧
    (yearlyStep b idx g st).totals.housing_company_annual +
        (st.monthly.map MonthDetail.company_housing).sum =
      st.totals.housing_company_annual +
        ((yearlyStep b idx g st).monthly.map MonthDetail.company_housing).sum ∧
    (yearlyStep b idx g st).totals.tax_annual +
        (st.monthly.map MonthDetail.tax).sum =
      st.totals.tax_annual +
        ((yearlyStep b idx g st).monthly.map MonthDetail.tax).sum ∧
    (yearlyStep b idx g st).totals.net_annual +
        (st.monthly.map MonthDetail.net).sum =
      st.totals.net_annual +
        ((yearlyStep b idx g st).monthly.map MonthDetail.net).sum := by
  refine ⟨by simp [yearlyStep], ?_, ?_, ?_, ?_, ?_⟩ <;>
  · simp [yearlyStep, yearlyStep_social_total_fix]
    ring

/-- The loop invariant behind the totals: the gross accumulator absorbs
the raw gross values, while the other five accumulators move in lockstep
with the column sums of the emitted records. -/
theorem yearlyLoop_totals (b : Bool) (gs : List ℚ) :
    ∀ (idx : ℕ) (st : LoopState),
      (yearlyLoop b idx gs st).totals.gross_annual =
        st.totals.gross_annual + gs.sum ∧
      (yearlyLoop b idx gs st).totals.social_personal_annual +
          (st.monthly.map MonthDetail.social_total).sum =
        st.totals.social_personal_annual +
          ((yearlyLoop b idx gs st).monthly.map MonthDetail.social_total).sum ∧
      (yearlyLoop b idx gs st).totals.housing_personal_annual +
          (st.monthly.map MonthDetail.personal_housing).sum =
        st.totals.housing_personal_annual +
          ((yearlyLoop b idx gs st).monthly.map MonthDetail.personal_housing).sum ∧
      (yearlyLoop b idx gs st).totals.housing_company_annual +
          (st.monthly.map MonthDetail.company_housing).sum =
        st.totals.housing_company_annual +
          ((yearlyLoop b idx gs st).monthly.map MonthDetail.company_housing).sum ∧
      (yearlyLoop b idx gs st).totals.tax_annual +
          (st.monthly.map MonthDetail.tax).sum =
        st.totals.tax_annual +
          ((yearlyLoop b idx gs st).monthly.map MonthDetail.tax).sum ∧
      (yearlyLoop b idx gs st).totals.net_annual +
          (st.monthly.map MonthDetail.net).sum =
        st.totals.net_annual +
          ((yearlyLoop b idx gs st).monthly.map MonthDetail.net).sum := by
  induction gs with
  | nil => intro idx st; simp [yearlyLoop]
  | cons g rest ih =>
    intro idx st
    rw [yearlyLoop]
    obtain ⟨s1, s2, s3, s4, s5, s6⟩ := yearlyStep_totals b idx g st
    obtain ⟨l1, l2, l3, l4, l5, l6⟩ := ih (idx + 1) (yearlyStep b idx g st)
    refine ⟨by rw [l1, s1, List.sum_cons]; ring, by linarith, by linarith,
      by linarith, by linarith, by linarith⟩

/-- C1, amended: after the 12 months, the gross total accumulates the raw
(unrounded) gross values and is rounded once at the end, and the social
total accumulates the per-month contribution sums (whose emitted column
equals them exactly); but the housing, tax and net totals accumulate the
already-rounded per-month output values of those columns, each total then
passed through the rounding policy once at the end. -/
theorem claim_C1 (xs : List ℚ) (b : Bool) :
    (yearly_salary_details xs b).totals.gross_annual =
      _r ((xs ++ List.replicate 12 0).take 12).sum b ∧
    (yearly_salary_details xs b).totals.social_personal_annual =
      _r (((yearly_salary_details xs b).monthly.map MonthDetail.social_total).sum) b ∧
    (yearly_salary_details xs b).totals.housing_personal_annual =
      _r (((yearly_salary_details xs b).monthly.map MonthDetail.personal_housing).sum) b ∧
    (yearly_salary_details xs b).totals.housing_company_annual =
      _r (((yearly_salary_details xs b).monthly.map MonthDetail.company_housing).sum) b ∧
    (yearly_salary_details xs b).totals.tax_annual =
      _r (((yearly_salary_details xs b).monthly.map MonthDetail.tax).sum) b ∧
    (yearly_salary_details xs b).totals.net_annual =
      _r (((yearly_salary_details xs b).monthly.map MonthDetail.net).sum) b := by
  obtain ⟨h1, h2, h3, h4, h5, h6⟩ :=
    yearlyLoop_totals b ((xs ++ List.replicate 12 0).take 12) 1 initState
  simp only [initState, List.map_nil, List.sum_nil, add_zero, zero_add] at h1 h2 h3 h4 h5 h6
  simp only [yearly_salary_details, roundTotals, initState]
  exact ⟨by rw [h1], by rw [h2], by rw [h3], by rw [h4], by rw [h5], by rw [h6]⟩

set_option maxHeartbeats 4000000 in
/-- C1, counterexample: on twelve months of gross 100.4 with integer
rounding, every month has contribution sum 473, tax 0 and emitted net
-373; the sum of the unrounded per-month net values is 12 * (100.4 - 473)
= -4471.2, which the rounding policy sends to -4471, yet the totals record
reports -4476 — the sum of the already-rounded monthly net values. -/
theorem claim_C1_counterexample :
    (yearly_salary_details (List.replicate 12 (100.4 : ℚ)) true).monthly.map
        MonthDetail.social_total = List.replicate 12 473 ∧
    (yearly_salary_details (List.replicate 12 (100.4 : ℚ)) true).monthly.map
        MonthDetail.tax = List.replicate 12 0 ∧
    (yearly_salary_details (List.replicate 12 (100.4 : ℚ)) true).monthly.map
        MonthDetail.net = List.replicate 12 (-373) ∧
    _r (12 * ((100.4 : ℚ) - 473 - 0)) true = -4471 ∧
    (yearly_salary_details (List.replicate 12 (100.4 : ℚ)) true).totals.net_annual = -4476 ∧
    (yearly_salary_details (List.replicate 12 (100.4 : ℚ)) true).totals.net_annual ≠
      _r (12 * ((100.4 : ℚ) - 473 - 0)) true := by
  norm_num [yearly_salary_details, yearlyLoop, yearlyStep, initState, roundTotals,
    _cap_base, _social, SocialSet.total, _r, pyRound2, rhe, _tax,
    ANNUAL_TAX_BRACKETS, withinLimit, MIN_BASE, MAX_BASE, PENSION_RATE,
    MEDICAL_RATE, UNEMPLOYMENT_RATE, HOUSING_FUND_RATE, HOUSING_FUND_RATE_EMPLOYER,
    STANDARD_DEDUCTION_MONTHLY, round_eq, List.replicate]

set_option maxHeartbeats 4000000 in
/-- C3: on twelve equal months of 12000 without integer rounding, the
totals of the cumulative calculator agree with the aggregate fields of
`annual_net(144000, false)` — gross, personal social contributions, tax
and net — within a 1-unit tolerance per field (they agree exactly). -/
theorem claim_C3 :
    |(yearly_salary_details (List.replicate 12 12000) false).totals.gross_annual
        - 144000| ≤ 1 ∧
    |(yearly_salary_details (List.replicate 12 12000) false).totals.social_personal_annual
        - (annual_net 144000 false).social_total_annual| ≤ 1 ∧
    |(yearly_salary_details (List.replicate 12 12000) false).totals.tax_annual
        - (annual_net 144000 false).tax_annual| ≤ 1 ∧
    |(yearly_salary_details (List.replicate 12 12000) false).totals.net_annual
        - (annual_net 144000 false).net_annual| ≤ 1 := by
  norm_num [yearly_salary_details, yearlyLoop, yearlyStep, initState, roundTotals,
    annual_net, _cap_base, _social, SocialSet.total, _r, pyRound2, rhe, _tax,
    ANNUAL_TAX_BRACKETS, MONTHLY_TAX_BRACKETS, withinLimit, MIN_BASE, MAX_BASE,
    PENSION_RATE, MEDICAL_RATE, UNEMPLOYMENT_RATE, HOUSING_FUND_RATE,
    HOUSING_FUND_RATE_EMPLOYER, STANDARD_DEDUCTION_MONTHLY,
    STANDARD_DEDUCTION_ANNUAL, round_eq, List.replicate]

set_option maxHeartbeats 4000000 in
/-- C2 witness: the non-negativity theorem applied to the first record of
the run on the single-entry list [12000]. -/
theorem claim_C2_witness :
    (⟨1, 12000, 960, 243, 60, 840, 2103, 840, 840, 1680, 14691/100, 975009/100⟩ :
        MonthDetail) ∈ (yearly_salary_details [12000] false).monthly ∧
    (0 : ℚ) ≤
      (⟨1, 12000, 960, 243, 60, 840, 2103, 840, 840, 1680, 14691/100, 975009/100⟩ :
        MonthDetail).tax := by
  have hmem : (⟨1, 12000, 960, 243, 60, 840, 2103, 840, 840, 1680, 14691/100,
      975009/100⟩ : MonthDetail) ∈ (yearly_salary_details [12000] false).monthly := by
    norm_num [yearly_salary_details, yearlyLoop, yearlyStep, initState,
      _cap_base, _social, SocialSet.total, _r, pyRound2, rhe, _tax,
      ANNUAL_TAX_BRACKETS, withinLimit, MIN_BASE, MAX_BASE, PENSION_RATE,
      MEDICAL_RATE, UNEMPLOYMENT_RATE, HOUSING_FUND_RATE,
      HOUSING_FUND_RATE_EMPLOYER, STANDARD_DEDUCTION_MONTHLY, round_eq,
      List.replicate]
  exact ⟨hmem, claim_C2 [12000] false _ hmem⟩

set_option maxHeartbeats 4000000 in
/-- C10 witness: the housing-fund equality applied to the first record of
the run on the empty input list (twelve zero-income months). -/
theorem claim_C10_witness :
    (⟨1, 0, 1076/5, 284/5, 269/20, 1883/10, 1895/4, 1883/10, 1883/10, 1883/5,
        0, -1895/4⟩ : MonthDetail) ∈ (yearly_salary_details [] false).monthly ∧
    (⟨1, 0, 1076/5, 284/5, 269/20, 1883/10, 1895/4, 1883/10, 1883/10, 1883/5,
        0, -1895/4⟩ : MonthDetail).personal_housing =
      (⟨1, 0, 1076/5, 284/5, 269/20, 1883/10, 1895/4, 1883/10, 1883/10, 1883/5,
        0, -1895/4⟩ : MonthDetail).company_housing := by
  have hmem : (⟨1, 0, 1076/5, 284/5, 269/20, 1883/10, 1895/4, 1883/10, 1883/10,
      1883/5, 0, -1895/4⟩ : MonthDetail) ∈
      (yearly_salary_details [] false).monthly := by
    norm_num [yearly_salary_details, yearlyLoop, yearlyStep, initState,
      _cap_base, _social, SocialSet.total, _r, pyRound2, rhe, _tax,
      ANNUAL_TAX_BRACKETS, withinLimit, MIN_BASE, MAX_BASE, PENSION_RATE,
      MEDICAL_RATE, UNEMPLOYMENT_RATE, HOUSING_FUND_RATE,
      HOUSING_FUND_RATE_EMPLOYER, STANDARD_DEDUCTION_MONTHLY, round_eq,
      List.replicate]
  exact ⟨hmem, claim_C10 [] false _ hmem⟩

end TaxCalc
